import Mathlib

/-!
Verification development for `src/analytical_engine/frame/cython_pie_app_frame.cc`
(GraphScope analytical engine, cython PIE app frame).

The frame exposes four boundary operations (`AppInit`/`CreateApp` internally,
`CreateWorker`, `Query`, `DeleteWorker` across the C ABI).  We embed each as a
pure Lean function over explicit state:

* the embedded Python interpreter state (`PyEnv`) is threaded explicitly;
* side effects (`printf`, `Py_Finalize`, `Py_Initialize`, binding the three
  callbacks, allocating and deleting the handler, the worker member calls)
  are recorded in an event trace (`Event`);
* out-parameters that the C++ code may leave unassigned (`ctx_wrapper`,
  `wrapper_error`) are `Option`s, `none` meaning "left unassigned".

Parts of the repository that the frame calls but that are not in the frame
file itself (`gs::AppInvoker::Query`, the grape worker's superstep loop, the
`CythonPIEProgram` slot guard) are modelled from the specification; each such
definition carries a doc comment saying so.
-/

namespace GSFrame

/-- A graph fragment handed to `CreateWorker` (one partition of the
distributed graph).  The frame treats it as an opaque shared pointer; we keep
an identifier. -/
structure Fragment where
  fid : Nat
  deriving DecidableEq

/-- `grape::CommSpec`: the communication-group spec, consumed verbatim by the
frame and forwarded to `worker->Init`. -/
structure CommSpec where
  cid : Nat
  deriving DecidableEq

/-- `grape::ParallelEngineSpec`: the intra-worker parallelism spec, consumed
verbatim by the frame and forwarded to `worker->Init`. -/
structure ParallelEngineSpec where
  pid : Nat
  deriving DecidableEq

/-- State of the embedded Python environment: `active` counts the active
interpreters (`Py_IsInitialized()` is `0 < active`; `Py_Finalize` drops to 0;
`Py_Initialize` brings an uninitialized environment to exactly one). -/
structure PyEnv where
  active : Nat
  deriving DecidableEq

/-- Observable side effects of the frame operations, in program order. -/
inductive Event where
  | appendInittab (ok : Bool)
  | printErr (msg : String)
  | pyFinalizeEv
  | pyInitEv
  | importModuleEv
  | setInitFn
  | setPEvalFn
  | setIncEvalFn
  | makeApp
  | newHandler
  | createWorkerInner
  | workerInitEv
  | workerFinalizeEv
  | workerResetEv
  | deleteHandlerEv
  deriving DecidableEq

/-- The three wrapper callbacks `_Init`, `_PEval`, `_IncEval` that the frame
binds into the program.  Their bodies delegate to the loaded Python module, so
we keep them as opaque tokens. -/
inductive PieCallback where
  | initCb
  | pevalCb
  | incEvalCb
  deriving DecidableEq

/-- `gs::CythonPIEProgram`: three callback slots, one per phase; a slot is
`none` while unbound. -/
structure CythonPIEProgram where
  initFn : Option PieCallback
  pevalFn : Option PieCallback
  incEvalFn : Option PieCallback
  deriving DecidableEq

/-- `_APP_TYPE = gs::PythonPIEApp<...>`: composes the program. -/
structure PythonPIEApp where
  program : CythonPIEProgram
  deriving DecidableEq

/-- Worker lifecycle states from the spec's state machine
(`Uninitialized → Ready → … → Finalized`). -/
inductive WorkerState where
  | uninit
  | ready
  | finalized
  deriving DecidableEq

/-- The worker: one app bound to one fragment, the communication-group and
parallelism configuration once `Init` has run, and the computation context
(`context_t`, abstracted to a value). -/
structure Worker where
  app : PythonPIEApp
  fragment : Fragment
  state : WorkerState
  commSpec : Option CommSpec
  parSpec : Option ParallelEngineSpec
  ctx : Nat
  deriving DecidableEq

/-- `worker_handler_t`: the heap struct holding the shared worker pointer,
returned across the C ABI as `void*`. -/
structure WorkerHandler where
  worker : Worker
  deriving DecidableEq

/-- The message printed by `AppInit` when `PyImport_AppendInittab` fails. -/
def moduleErrMsg : String := "Cannot initialize Python module..."

/-- `python_grape::AppInit` (frame lines 99–118): register the module in the
inittab, bail out with a printed message on failure; otherwise finalize an
already-initialized interpreter, initialize a fresh one and import the module.
`appendOk` is the outcome of `PyImport_AppendInittab` (`false` = negative
return). -/
def AppInit (appendOk : Bool) (env : PyEnv) : PyEnv × List Event :=
  if appendOk then
    if 0 < env.active then
      (⟨1⟩, [.appendInittab true, .pyFinalizeEv, .pyInitEv, .importModuleEv])
    else
      (⟨1⟩, [.appendInittab true, .pyInitEv, .importModuleEv])
  else
    (env, [.appendInittab false, .printErr moduleErrMsg])

/-- `python_grape::CreateApp` (frame lines 120–127): run `AppInit`, bind all
three callbacks into a fresh program, then construct the app from it. -/
def CreateApp (appendOk : Bool) (env : PyEnv) :
    PyEnv × PythonPIEApp × List Event :=
  let r := AppInit appendOk env
  (r.1,
   ⟨⟨some .initCb, some .pevalCb, some .incEvalCb⟩⟩,
   r.2 ++ [.setInitFn, .setPEvalFn, .setIncEvalFn, .makeApp])

/-- `_APP_TYPE::CreateWorker(app, fragment)`: materialize a worker binding the
app to the fragment; no communication group yet (`Uninitialized`). -/
def makeWorker (app : PythonPIEApp) (frag : Fragment) : Worker :=
  ⟨app, frag, .uninit, none, none, 0⟩

/-- `worker->Init(comm_spec, spec)`: establish the communication-group
topology and the parallelism configuration; `Uninitialized → Ready`. -/
def Worker.init (w : Worker) (cs : CommSpec) (ps : ParallelEngineSpec) :
    Worker :=
  { w with state := .ready, commSpec := some cs, parSpec := some ps }

/-- `worker->Finalize()`: release communication resources; `→ Finalized`. -/
def Worker.finalizeW (w : Worker) : Worker :=
  { w with state := .finalized }

/-- `worker->GetContext()`. -/
def Worker.getContext (w : Worker) : Nat := w.ctx

/-- The exported `CreateWorker` (frame lines 136–145): create the app (which
runs `AppInit`), allocate the handler, materialize the worker and immediately
call `worker->Init(comm_spec, spec)`, then return the handler. -/
def CreateWorker (frag : Fragment) (commSpec : CommSpec)
    (spec : ParallelEngineSpec) (appendOk : Bool) (env : PyEnv) :
    PyEnv × WorkerHandler × List Event :=
  let r := CreateApp appendOk env
  let w0 := makeWorker r.2.1 frag
  let w1 := w0.init commSpec spec
  (r.1, ⟨w1⟩, r.2.2 ++ [.newHandler, .createWorkerInner, .workerInitEv])

/-- Result of the exported `DeleteWorker`: the worker as it stood after
`Finalize` (just before the shared reference was dropped), the handler's
worker field after `reset()` (`none` = released), and the event trace. -/
structure DeleteResult where
  finalizedWorker : Worker
  released : Option Worker
  trace : List Event
  deriving DecidableEq

/-- The exported `DeleteWorker` (frame lines 147–153): `worker->Finalize()`,
then `worker.reset()`, then `delete handler`. -/
def DeleteWorker (h : WorkerHandler) : DeleteResult :=
  let w1 := h.worker.finalizeW
  ⟨w1, none, [.workerFinalizeEv, .workerResetEv, .deleteHandlerEv]⟩

/-- Error taxonomy from the spec (§7). -/
inductive ErrorKind where
  | configurationError
  | communicationError
  | programError
  | argumentError
  deriving DecidableEq

/-- A structured error result value: a kind and a diagnostic message
(the payload carried by `bl::result`). -/
structure GSError where
  kind : ErrorKind
  msg : String
  deriving DecidableEq

/-- `gs::rpc::QueryArgs`: the opaque query-argument blob.  `valid` records
whether the bound program's callbacks can interpret it (malformed blobs are
rejected with an `ArgumentError`); `payload` the opaque content. -/
structure QueryArgs where
  valid : Bool
  payload : Nat
  deriving DecidableEq

/-- Diagnostic for a program with an unbound callback slot. -/
def unboundMsg : String := "program callback slot is not bound"

/-- Diagnostic for a query on a worker that is not in the Ready state. -/
def notReadyMsg : String := "worker is not ready"

/-- Diagnostic for a malformed query-argument blob. -/
def argErrMsg : String := "malformed query arguments"

/-- Modelled from the spec: `gs::AppInvoker<_APP_TYPE>::Query`
(`core/app/app_invoker.h` is not under `src/`).  Per §4.3 and §7 of the spec
it translates the opaque argument blob, fails with a `ConfigurationError`
before any evaluation work when the program has an unbound slot or the worker
is not `Ready`, fails with an `ArgumentError` on a malformed blob, and
otherwise drives the worker's PIE cycle to quiescence, converting any failure
into a structured result value instead of throwing.  The evaluation itself is
external user code (the loaded Python callbacks); we model it as a
deterministic update of the worker's context from its fragment and the
arguments. -/
def AppInvoker.query (w : Worker) (args : QueryArgs) :
    Worker × Except GSError Unit :=
  match w.app.program.initFn, w.app.program.pevalFn,
      w.app.program.incEvalFn with
  | some _, some _, some _ =>
    if w.state = .ready then
      if args.valid then
        ({ w with ctx := w.fragment.fid + args.payload }, .ok ())
      else
        (w, .error ⟨.argumentError, argErrMsg⟩)
    else
      (w, .error ⟨.configurationError, notReadyMsg⟩)
  | _, _, _ => (w, .error ⟨.configurationError, unboundMsg⟩)

/-- `gs::IFragmentWrapper`: opaque fragment wrapper handed to `Query`. -/
structure FragmentWrapper where
  wid : Nat
  deriving DecidableEq

/-- `gs::IContextWrapper`: a published read-only view over a context,
keyed by the caller-chosen context key. -/
structure IContextWrapper where
  key : String
  fragWrapper : FragmentWrapper
  ctxSnapshot : Nat
  deriving DecidableEq

/-- `gs::CtxWrapperBuilder<...>::build(context_key, frag_wrapper, ctx)`. -/
def CtxWrapperBuilder.build (key : String) (fw : FragmentWrapper)
    (ctx : Nat) : IContextWrapper :=
  ⟨key, fw, ctx⟩

/-- Outcome of the exported `Query`: the worker after the call and the two
out-parameters; `none` means the C++ code left the out-parameter
unassigned. -/
structure QueryOut where
  worker : Worker
  ctxWrapper : Option IContextWrapper
  wrapperError : Option GSError
  deriving DecidableEq

/-- The exported `Query` (frame lines 155–172): run
`gs::AppInvoker<_APP_TYPE>::Query(worker, query_args)`; on failure move the
result into `wrapper_error` and return at once; on success, if `context_key`
is non-empty, build a context wrapper under that key from
`worker->GetContext()`. -/
def Query (h : WorkerHandler) (queryArgs : QueryArgs) (contextKey : String)
    (fragWrapper : FragmentWrapper) : QueryOut :=
  let worker := h.worker
  let res := AppInvoker.query worker queryArgs
  match res.2 with
  | .error e => ⟨res.1, none, some e⟩
  | .ok _ =>
    if contextKey.isEmpty then
      ⟨res.1, none, none⟩
    else
      ⟨res.1,
       some (CtxWrapperBuilder.build contextKey fragWrapper
         res.1.getContext),
       none⟩

end GSFrame

namespace BSP

/-!
Modelled from the spec: the superstep loop that `Query` drives lives in the
PIE worker (`apps/python_pie/python_pie_app.h` and the grape worker it
instantiates), which is not under `src/`.  Per §4.2 and §5 of the spec we
model the communication group as a list of partition states, one per worker;
a superstep delivers each partition's incoming messages and runs `IncEval`
locally; the loop terminates exactly at global quiescence (every partition's
outbox empty — a global AND over per-partition flags).  Message delivery
order within a superstep is unspecified, so a run is parametrized by a
delivery schedule that may permute each partition's inbox; the spec's
determinism property (§8) requires the result to be unaffected by that order,
so `IncEval` consumes the multiset of delivered messages.
-/

/-- One partition's state inside the communication group: its id, its local
context (per-vertex computation state, abstracted to a value of `V`) and the
outbox of pending outgoing messages `(destination pid, payload)`. -/
structure PartitionState (V M : Type) where
  pid : Nat
  ctx : V
  outbox : List (Nat × M)
  deriving DecidableEq

/-- Modelled from the spec: the three phases of a PIE program as pure
functions.  `initPhase` builds each vertex's initial state purely from local
fragment data; `pevalPhase` is the partial evaluation over local data, which
may emit messages; `incEval` absorbs one superstep's delivered messages (as a
multiset, since delivery order within a superstep is unspecified and must not
affect the result) and may emit more. -/
structure PIEProgramModel (F V M : Type) where
  initPhase : Nat → F → V
  pevalPhase : Nat → F → V → V × List (Nat × M)
  incEval : Nat → V → Multiset M → V × List (Nat × M)

variable {F V M : Type}

/-- The messages pending for partition `i`, gathered from every partition's
outbox in the canonical (list) order. -/
def canonInbox (states : List (PartitionState V M)) (i : Nat) : List M :=
  (states.map (fun s => (s.outbox.filter (fun m => m.1 == i)).map
    Prod.snd)).flatten

/-- One partition's local superstep: absorb the delivered inbox via
`IncEval`, replacing the context and the outbox. -/
def stepPartition (prog : PIEProgramModel F V M) (s : PartitionState V M)
    (inbox : List M) : PartitionState V M :=
  let r := prog.incEval s.pid s.ctx (↑inbox)
  { s with ctx := r.1, outbox := r.2 }

/-- One global superstep under a delivery assignment `deliv` (the inbox
handed to each partition id): every partition in the group steps. -/
def superstepWith (prog : PIEProgramModel F V M) (deliv : Nat → List M)
    (states : List (PartitionState V M)) : List (PartitionState V M) :=
  states.map (fun s => stepPartition prog s (deliv s.pid))

/-- Global quiescence: every partition reports an empty outbox
(the global AND over the per-partition "no pending messages" flags). -/
def quiescent (states : List (PartitionState V M)) : Bool :=
  states.all (fun s => s.outbox.isEmpty)

/-- The superstep loop: starting at superstep index `k`, exit with the
current states as soon as the group is globally quiescent, otherwise run one
global superstep (delivery order for superstep `k` chosen by the schedule
`sched k`) and continue.  `fuel` bounds the number of inspected states;
`none` means the bound was exhausted before quiescence. -/
def runLoopSched (prog : PIEProgramModel F V M)
    (sched : Nat → Nat → List M) :
    Nat → Nat → List (PartitionState V M) →
      Option (List (PartitionState V M))
  | 0, _, _ => none
  | fuel + 1, k, states =>
    if quiescent states then some states
    else runLoopSched prog sched fuel (k + 1)
      (superstepWith prog (sched k) states)

/-- A schedule is valid for a run when, at every superstep it performs, the
inbox it hands each partition is a permutation of the messages actually
pending for that partition. -/
def ValidSched (prog : PIEProgramModel F V M)
    (sched : Nat → Nat → List M) :
    Nat → Nat → List (PartitionState V M) → Prop
  | 0, _, _ => True
  | fuel + 1, k, states =>
    (∀ i, (sched k i).Perm (canonInbox states i)) ∧
      ValidSched prog sched fuel (k + 1)
        (superstepWith prog (sched k) states)

/-- The initial states of the full PIE cycle: each partition runs `Init`
from its local fragment, then `PEval`, which may populate its outbox. -/
def initialStates (prog : PIEProgramModel F V M)
    (frags : List (Nat × F)) : List (PartitionState V M) :=
  frags.map (fun p =>
    let v := prog.initPhase p.1 p.2
    let r := prog.pevalPhase p.1 p.2 v
    ⟨p.1, r.1, r.2⟩)

/-- The full PIE cycle: Init, PEval, then the superstep loop from
superstep 0. -/
def runPIE (prog : PIEProgramModel F V M) (sched : Nat → Nat → List M)
    (fuel : Nat) (frags : List (Nat × F)) :
    Option (List (PartitionState V M)) :=
  runLoopSched prog sched fuel 0 (initialStates prog frags)

end BSP

namespace Demo

open GSFrame BSP

/-- A worker with all three callback slots bound, in the `Ready` state, used
to instantiate theorems at concrete inputs. -/
def wReady : Worker :=
  ⟨⟨⟨some .initCb, some .pevalCb, some .incEvalCb⟩⟩, ⟨7⟩, .ready,
   some ⟨0⟩, some ⟨1⟩, 0⟩

/-- A worker whose program has an unbound `Init` slot. -/
def wUnbound : Worker :=
  ⟨⟨⟨none, some .pevalCb, some .incEvalCb⟩⟩, ⟨7⟩, .ready,
   some ⟨0⟩, some ⟨1⟩, 0⟩

/-- A concrete two-partition PIE program: partition 0's `PEval` sends its
value to partition 1; `IncEval` adds the number of delivered messages to the
context and emits nothing. -/
def demoProg : PIEProgramModel Nat Nat Nat :=
  ⟨fun _ f => f,
   fun i _ v => (v, if i == 0 then [(1, v)] else []),
   fun _ v msgs => (v + Multiset.card msgs, [])⟩

/-- A single-partition PIE program that emits no messages at all. -/
def quietProg : PIEProgramModel Nat Nat Nat :=
  ⟨fun _ f => f,
   fun _ _ v => (v, []),
   fun _ v _ => (v, [])⟩

/-- The everywhere-empty delivery schedule. -/
def schedNil : Nat → Nat → List Nat := fun _ _ => []

/-- A schedule agreeing with `schedNil` on superstep 0 but differing on the
supersteps a one-superstep run never performs. -/
def schedAlt : Nat → Nat → List Nat :=
  fun k _ => if k == 0 then [] else [42]

end Demo

section Claims

open GSFrame BSP Demo

/-- Claim C1 is false on the code: at a concrete fragment,
communication-group spec and parallelism spec, the `CreateWorker` boundary
operation does call the worker's `Init` (frame line 143) and the returned
worker is not in the `Uninitialized` state. -/
theorem createWorker_counterexample :
    Event.workerInitEv ∈ (CreateWorker ⟨7⟩ ⟨0⟩ ⟨1⟩ true ⟨0⟩).2.2 ∧
    (CreateWorker ⟨7⟩ ⟨0⟩ ⟨1⟩ true ⟨0⟩).2.1.worker.state ≠
      WorkerState.uninit := by
  decide

/-- Claim C1, amended: for every fragment, communication-group spec and
parallelism spec, `CreateWorker` binds the app produced by `CreateApp` to the
fragment, materializes the worker, and immediately calls the worker's
`Init(comm_spec, spec)`, so the returned worker already has its communication
group established and is in the `Ready` state. -/
theorem createWorker_establishes_comm (frag : Fragment) (cs : CommSpec)
    (ps : ParallelEngineSpec) (appendOk : Bool) (env : PyEnv) :
    (CreateWorker frag cs ps appendOk env).2.1.worker.state =
      WorkerState.ready ∧
    (CreateWorker frag cs ps appendOk env).2.1.worker.commSpec = some cs ∧
    (CreateWorker frag cs ps appendOk env).2.1.worker.parSpec = some ps ∧
    (CreateWorker frag cs ps appendOk env).2.1.worker.app =
      (CreateApp appendOk env).2.1 ∧
    (CreateWorker frag cs ps appendOk env).2.1.worker.fragment = frag ∧
    Event.workerInitEv ∈ (CreateWorker frag cs ps appendOk env).2.2 := by
  refine ⟨rfl, rfl, rfl, rfl, rfl, ?_⟩
  simp [CreateWorker]

/-- Claim C4: for every worker handle, `DeleteWorker` calls the worker's
`Finalize` (the released worker reference is the finalized one), then drops
the worker reference, then deletes the handle, in that order. -/
theorem deleteWorker_finalize_then_release (h : WorkerHandler) :
    (DeleteWorker h).trace =
      [Event.workerFinalizeEv, Event.workerResetEv,
       Event.deleteHandlerEv] ∧
    (DeleteWorker h).finalizedWorker = h.worker.finalizeW ∧
    (DeleteWorker h).finalizedWorker.state = WorkerState.finalized ∧
    (DeleteWorker h).released = none :=
  ⟨rfl, rfl, rfl, rfl⟩

/-- Claim C2: for every successfully completing `Query` call, an empty
result key means no context wrapper is built and the `ctx_wrapper`
out-parameter is left unassigned, while a non-empty key means a context
wrapper is built under that key from the worker's context as it stands when
`Query` returns; no error is assigned either way. -/
theorem query_publication_contract (h : WorkerHandler) (args : QueryArgs)
    (key : String) (fw : FragmentWrapper) (w' : Worker)
    (hq : AppInvoker.query h.worker args = (w', Except.ok ())) :
    (Query h args key fw).worker = w' ∧
    (key.isEmpty = true →
       (Query h args key fw).ctxWrapper = none ∧
       (Query h args key fw).wrapperError = none) ∧
    (key.isEmpty = false →
       (Query h args key fw).ctxWrapper =
         some (CtxWrapperBuilder.build key fw w'.getContext) ∧
       (Query h args key fw).wrapperError = none) := by
  simp only [Query, hq]
  rcases hk : key.isEmpty <;> simp [hk]

/-- Witness for C2 at a concrete worker, valid arguments and the non-empty
key "result": the published wrapper snapshots the context the worker holds
when `Query` returns. -/
theorem query_publication_witness :
    (Query ⟨wReady⟩ ⟨true, 5⟩ "result" ⟨3⟩).ctxWrapper =
      some (CtxWrapperBuilder.build "result" ⟨3⟩ 12) := by
  have h := query_publication_contract ⟨wReady⟩ ⟨true, 5⟩ "result" ⟨3⟩
    { wReady with ctx := 12 } rfl
  exact (h.2.2 (by decide)).1

/-- Claim C3: for every `Query` call whose underlying `AppInvoker`
evaluation fails, the failure is delivered as a structured result value
through the `wrapper_error` out-parameter, `Query` returns at once with the
worker as the invoker left it, and no context view is published even when a
non-empty result key was supplied. -/
theorem query_failure_no_publication (h : WorkerHandler) (args : QueryArgs)
    (key : String) (fw : FragmentWrapper) (w' : Worker) (e : GSError)
    (hq : AppInvoker.query h.worker args = (w', Except.error e)) :
    (Query h args key fw).wrapperError = some e ∧
    (Query h args key fw).ctxWrapper = none ∧
    (Query h args key fw).worker = w' := by
  simp [Query, hq]

/-- Witness for C3 at a concrete worker, malformed arguments and a non-empty
key: the error is surfaced and nothing is published. -/
theorem query_failure_witness :
    (Query ⟨wReady⟩ ⟨false, 5⟩ "result" ⟨3⟩).wrapperError =
      some ⟨ErrorKind.argumentError, argErrMsg⟩ ∧
    (Query ⟨wReady⟩ ⟨false, 5⟩ "result" ⟨3⟩).ctxWrapper = none := by
  have h := query_failure_no_publication ⟨wReady⟩ ⟨false, 5⟩ "result" ⟨3⟩
    wReady ⟨ErrorKind.argumentError, argErrMsg⟩ rfl
  exact ⟨h.1, h.2.1⟩

/-- Claim C5: `CreateApp` binds all three callback slots before constructing
the app (the three set events precede the app construction event in its
trace), so every worker produced by `CreateWorker` carries a fully bound
program and the unbound-slot `ConfigurationError` branch is unreachable for
it (any failure of its invoker is an `ArgumentError`); invoking the app
invoker against a program with any slot unbound fails with a
`ConfigurationError` and leaves the worker untouched — before any evaluation
work begins. -/
theorem program_slots_always_bound (appendOk : Bool) (env : PyEnv)
    (frag : Fragment) (cs : CommSpec) (ps : ParallelEngineSpec) :
    ((CreateApp appendOk env).2.1.program =
       ⟨some .initCb, some .pevalCb, some .incEvalCb⟩) ∧
    ((CreateApp appendOk env).2.2 =
       (AppInit appendOk env).2 ++
         [Event.setInitFn, Event.setPEvalFn, Event.setIncEvalFn,
          Event.makeApp]) ∧
    ((CreateWorker frag cs ps appendOk env).2.1.worker.app.program =
       ⟨some .initCb, some .pevalCb, some .incEvalCb⟩) ∧
    (∀ w args,
      (w.app.program.initFn = none ∨ w.app.program.pevalFn = none ∨
          w.app.program.incEvalFn = none) →
        AppInvoker.query w args =
          (w, Except.error ⟨ErrorKind.configurationError, unboundMsg⟩)) ∧
    (∀ args e,
      (AppInvoker.query (CreateWorker frag cs ps appendOk env).2.1.worker
          args).2 = Except.error e → e.kind = ErrorKind.argumentError) := by
  refine ⟨rfl, rfl, rfl, ?_, ?_⟩
  · intro w args hu
    rcases h1 : w.app.program.initFn with _ | c1 <;>
      rcases h2 : w.app.program.pevalFn with _ | c2 <;>
        rcases h3 : w.app.program.incEvalFn with _ | c3 <;>
          simp [AppInvoker.query, h1, h2, h3] at hu ⊢
  · intro args e he
    rcases hv : args.valid <;>
      simp [AppInvoker.query, CreateWorker, CreateApp, makeWorker,
        Worker.init, hv] at he
    rw [← he]

/-- Witness for C5 at a concrete worker whose `Init` slot is unbound: the
invoker rejects the query with a `ConfigurationError` and does not touch the
worker. -/
theorem program_slots_witness :
    AppInvoker.query wUnbound ⟨true, 0⟩ =
      (wUnbound,
       Except.error ⟨ErrorKind.configurationError, unboundMsg⟩) :=
  (program_slots_always_bound true ⟨0⟩ ⟨7⟩ ⟨0⟩ ⟨1⟩).2.2.2.1 wUnbound
    ⟨true, 0⟩ (Or.inl rfl)

/-- Claim C6 is false on the code: calling `AppInit` with an uninitialized
interpreter while `PyImport_AppendInittab` fails returns early, leaving zero
active interpreters rather than exactly one. -/
theorem appInit_singleton_counterexample :
    ¬ (AppInit false ⟨0⟩).1.active = 1 := by
  decide

/-- Claim C6, amended: after any call to `AppInit` in which the module
registration succeeds there is exactly one active Python interpreter —
`AppInit` finalizes an already-initialized interpreter before initializing a
fresh one; a call in which the registration fails returns early and leaves
the interpreter state unchanged. -/
theorem appInit_singleton_amended (env : PyEnv) :
    (AppInit true env).1.active = 1 ∧
    (0 < env.active → Event.pyFinalizeEv ∈ (AppInit true env).2) ∧
    (AppInit false env).1 = env := by
  unfold AppInit
  by_cases hA : 0 < env.active <;> simp [hA]

/-- Witness for C6's amended claim at an environment with an active
interpreter: exactly one remains active and the old one was finalized. -/
theorem appInit_singleton_witness :
    (AppInit true ⟨2⟩).1.active = 1 ∧
    Event.pyFinalizeEv ∈ (AppInit true ⟨2⟩).2 := by
  have h := appInit_singleton_amended ⟨2⟩
  exact ⟨h.1, h.2.1 (by decide)⟩

/-- Claim C7: every `CreateWorker` call runs `CreateApp`, whose `AppInit`
runs unconditionally (its inittab registration event is always in the
trace); when the interpreter is already live (an earlier worker's callbacks
depend on it) and registration succeeds, the trace shows `Py_Finalize`
tearing that interpreter down before `Py_Initialize` replaces it, and
exactly one fresh interpreter is active afterwards. -/
theorem second_createWorker_teardown (frag : Fragment) (cs : CommSpec)
    (ps : ParallelEngineSpec) (env : PyEnv) (hlive : 0 < env.active) :
    (∀ aok env2, Event.appendInittab aok ∈
        (CreateWorker frag cs ps aok env2).2.2) ∧
    (CreateWorker frag cs ps true env).2.2 =
      [Event.appendInittab true, Event.pyFinalizeEv, Event.pyInitEv,
       Event.importModuleEv, Event.setInitFn, Event.setPEvalFn,
       Event.setIncEvalFn, Event.makeApp, Event.newHandler,
       Event.createWorkerInner, Event.workerInitEv] ∧
    (CreateWorker frag cs ps true env).1.active = 1 := by
  refine ⟨?_, ?_, ?_⟩
  · intro aok env2
    rcases aok <;> by_cases hA : 0 < env2.active <;>
      simp [CreateWorker, CreateApp, AppInit, hA]
  · simp [CreateWorker, CreateApp, AppInit, hlive]
  · simp [CreateWorker, CreateApp, AppInit, hlive]

/-- Witness for C7 at a live interpreter: the second `CreateWorker`'s trace
contains the interpreter teardown. -/
theorem second_createWorker_witness :
    Event.pyFinalizeEv ∈ (CreateWorker ⟨7⟩ ⟨0⟩ ⟨1⟩ true ⟨1⟩).2.2 := by
  have h := second_createWorker_teardown ⟨7⟩ ⟨0⟩ ⟨1⟩ ⟨1⟩ (by decide)
  rw [h.2.1]
  decide

/-- Claim C8: when the inittab registration fails inside `AppInit`, the
message is printed, the interpreter is never initialized (the environment is
returned unchanged and no `Py_Initialize` event occurs), and `CreateWorker`
nevertheless binds the three callbacks and returns a worker handle in the
`Ready` state — no structured error reaches its caller (its return carries
no error channel at all). -/
theorem append_failure_swallowed (frag : Fragment) (cs : CommSpec)
    (ps : ParallelEngineSpec) (env : PyEnv) :
    (CreateWorker frag cs ps false env).1 = env ∧
    Event.printErr moduleErrMsg ∈
      (CreateWorker frag cs ps false env).2.2 ∧
    Event.pyInitEv ∉ (CreateWorker frag cs ps false env).2.2 ∧
    (CreateWorker frag cs ps false env).2.1.worker.app.program =
      ⟨some .initCb, some .pevalCb, some .incEvalCb⟩ ∧
    (CreateWorker frag cs ps false env).2.1.worker.state =
      WorkerState.ready := by
  refine ⟨rfl, ?_, ?_, rfl, rfl⟩ <;>
    simp [CreateWorker, CreateApp, AppInit]

/-- The loop only ever returns a globally quiescent state. -/
theorem runLoopSched_quiescent {F V M : Type} (prog : PIEProgramModel F V M)
    (sched : Nat → Nat → List M) :
    ∀ fuel k states result,
      runLoopSched prog sched fuel k states = some result →
      quiescent result = true := by
  intro fuel
  induction fuel with
  | zero => intro k states result h; simp [runLoopSched] at h
  | succ n ih =>
    intro k states result h
    unfold runLoopSched at h
    by_cases hq : quiescent states = true
    · rw [if_pos hq] at h
      cases h
      exact hq
    · rw [if_neg hq] at h
      exact ih _ _ _ h

/-- Claim C9: the superstep loop terminates exactly at global quiescence —
whenever it returns, every partition in the group reports an empty outbox
(quiescence is the global AND over per-partition flags); a quiescent group
exits at once, and while any partition still has pending messages no
partition exits: the whole group runs another superstep together. -/
theorem query_loop_global_quiescence {F V M : Type}
    (prog : PIEProgramModel F V M) (sched : Nat → Nat → List M)
    (fuel k : Nat) (states result : List (PartitionState V M))
    (h : runLoopSched prog sched fuel k states = some result) :
    quiescent result = true ∧
    (∀ s ∈ result, s.outbox = []) ∧
    (∀ fuel2 k2 (states2 : List (PartitionState V M)),
        quiescent states2 = true →
        runLoopSched prog sched (fuel2 + 1) k2 states2 = some states2) ∧
    (∀ fuel2 k2 (states2 : List (PartitionState V M)),
        (∃ s ∈ states2, s.outbox ≠ []) →
        runLoopSched prog sched (fuel2 + 1) k2 states2 =
          runLoopSched prog sched fuel2 (k2 + 1)
            (superstepWith prog (sched k2) states2)) := by
  have hq := runLoopSched_quiescent prog sched fuel k states result h
  refine ⟨hq, ?_, ?_, ?_⟩
  · intro s hs
    have := List.all_eq_true.mp hq s hs
    simpa using this
  · intro fuel2 k2 states2 hq2
    unfold runLoopSched
    rw [if_pos hq2]
  · intro fuel2 k2 states2 hex
    have hq2 : ¬ quiescent states2 = true := by
      rcases hex with ⟨s, hs, hne⟩
      intro hall
      exact hne (by simpa using List.all_eq_true.mp hall s hs)
    conv_lhs => unfold runLoopSched
    rw [if_neg hq2]

/-- Witness for C9: a concrete two-partition run of `demoProg` (partition 0
sends one message, both partitions then fall silent) terminates, and the
theorem yields that at termination no partition has pending messages. -/
theorem query_loop_witness :
    quiescent [(⟨0, 5, []⟩ : PartitionState Nat Nat), ⟨1, 7, []⟩] =
      true := by
  have h := query_loop_global_quiescence demoProg schedNil 2 0
    (initialStates demoProg [(0, 5), (1, 7)])
    [⟨0, 5, []⟩, ⟨1, 7, []⟩] (by decide)
  exact h.1

/-- Absorbing two permuted inboxes gives the same partition state, since
`IncEval` consumes the multiset of delivered messages. -/
theorem stepPartition_perm {F V M : Type} (prog : PIEProgramModel F V M)
    (s : PartitionState V M) {l1 l2 : List M} (h : l1.Perm l2) :
    stepPartition prog s l1 = stepPartition prog s l2 := by
  unfold stepPartition
  rw [Multiset.coe_eq_coe.mpr h]

/-- A global superstep is unchanged when every partition's delivered inbox
is permuted. -/
theorem superstepWith_congr {F V M : Type} (prog : PIEProgramModel F V M)
    {f g : Nat → List M} (states : List (PartitionState V M))
    (h : ∀ i, (f i).Perm (g i)) :
    superstepWith prog f states = superstepWith prog g states := by
  unfold superstepWith
  induction states with
  | nil => rfl
  | cons s t ih =>
    simp only [List.map_cons]
    rw [stepPartition_perm prog s (h s.pid), ih]

/-- The superstep loop is unchanged under any two valid delivery
schedules. -/
theorem runLoopSched_perm_eq {F V M : Type}
    (prog : PIEProgramModel F V M) :
    ∀ fuel k states (sched1 sched2 : Nat → Nat → List M),
      ValidSched prog sched1 fuel k states →
      ValidSched prog sched2 fuel k states →
      runLoopSched prog sched1 fuel k states =
        runLoopSched prog sched2 fuel k states := by
  intro fuel
  induction fuel with
  | zero => intro k states s1 s2 _ _; rfl
  | succ n ih =>
    intro k states s1 s2 h1 h2
    unfold ValidSched at h1 h2
    unfold runLoopSched
    by_cases hq : quiescent states = true
    · rw [if_pos hq, if_pos hq]
    · rw [if_neg hq, if_neg hq]
      have hperm : ∀ i, (s1 k i).Perm (s2 k i) := fun i =>
        (h1.1 i).trans (h2.1 i).symm
      have hstep : superstepWith prog (s1 k) states =
          superstepWith prog (s2 k) states :=
        superstepWith_congr prog states hperm
      rw [hstep]
      exact ih (k + 1) (superstepWith prog (s2 k) states) s1 s2
        (hstep ▸ h1.2) h2.2

/-- Claim C10: two runs of the full PIE cycle on the same fragments, program
and communication-group topology, under any two valid delivery schedules
(each may permute every partition's inbox of every superstep arbitrarily),
produce identical final per-partition context values. -/
theorem pie_cycle_deterministic {F V M : Type}
    (prog : PIEProgramModel F V M) (frags : List (Nat × F)) (fuel : Nat)
    (sched1 sched2 : Nat → Nat → List M)
    (h1 : ValidSched prog sched1 fuel 0 (initialStates prog frags))
    (h2 : ValidSched prog sched2 fuel 0 (initialStates prog frags)) :
    runPIE prog sched1 fuel frags = runPIE prog sched2 fuel frags :=
  runLoopSched_perm_eq prog fuel 0 (initialStates prog frags) sched1
    sched2 h1 h2

/-- Witness for C10: two concrete, syntactically different schedules for a
one-partition run of `quietProg` are both valid, and the theorem yields that
the two runs agree. -/
theorem pie_cycle_witness :
    runPIE quietProg schedNil 1 [(0, 3)] =
      runPIE quietProg schedAlt 1 [(0, 3)] := by
  have hv1 : ValidSched quietProg schedNil 1 0
      (initialStates quietProg [(0, 3)]) :=
    ⟨fun _ => List.Perm.refl [], trivial⟩
  have hv2 : ValidSched quietProg schedAlt 1 0
      (initialStates quietProg [(0, 3)]) :=
    ⟨fun _ => List.Perm.refl [], trivial⟩
  exact pie_cycle_deterministic quietProg [(0, 3)] 1 schedNil schedAlt
    hv1 hv2

end Claims
